import Mathlib

/-!
Shallow embedding of the EV charging reservation server
(src/main/models.py and src/main/main.py).

Modelling conventions:
* datetimes are integers; each operation executes at a single instant
  `now` passed as a parameter, standing for the clock reads
  (datetime.now / datetime.utcnow) performed during that call;
* uuid.uuid4() is modelled by a caller-supplied identifier `newId`;
* HTTPException is modelled by the inductive `ApiError`, one constructor
  per distinct raise site, with `ApiError.status_code` giving the HTTP code;
* the Python handlers mutate global lists in place and raise to abort; each
  handler becomes a function from the global state to a result paired with
  the state as it stands when the handler returns or raises.
-/

namespace EVCharging

structure Connector where
  connector_id : String
  type : String
  power_kw : Rat
  status : String
deriving Repr, DecidableEq

structure ChargingStation where
  station_id : String
  name : String
  location_coords : List Rat
  address : String
  owner : String
  is_public : Bool
  connectors : List Connector
  overall_status : String
deriving Repr, DecidableEq

structure ChargingSessionCreate where
  station_id : String
  connector_id : String
  user_id : String
  start_time : Int
  expected_end_time : Int
deriving Repr, DecidableEq

structure ChargingSession where
  session_id : String
  station_id : String
  connector_id : String
  user_id : String
  start_time : Int
  expected_end_time : Int
  actual_end_time : Option Int
  kwh_consumed : Option Rat
  cost : Option Rat
  status : String
  created_at : Int
  updated_at : Int
deriving Repr, DecidableEq

/-- The global mutable state: `mock_stations_db` and `mock_sessions_db`. -/
structure State where
  stations : List ChargingStation
  sessions : List ChargingSession
deriving Repr, DecidableEq

/-- The seeded station inventory `mock_stations_db` from main.py. -/
def mock_stations_db : List ChargingStation :=
  [ { station_id := "STN-001"
      name := "Downtown Fast Charger"
      location_coords := [(340522 : Rat)/10000, (-1182437 : Rat)/10000]
      address := "123 Main St, Anytown"
      owner := "EVChargeCo"
      is_public := true
      connectors :=
        [ { connector_id := "C-001-1", type := "CCS1", power_kw := 50,
            status := "available" },
          { connector_id := "C-001-2", type := "J1772", power_kw := (72 : Rat)/10,
            status := "available" } ]
      overall_status := "active" },
    { station_id := "STN-002"
      name := "Parkside L2 Chargers"
      location_coords := [(340722 : Rat)/10000, (-1182537 : Rat)/10000]
      address := "456 Oak Ave, Anytown"
      owner := "CityPower"
      is_public := true
      connectors :=
        [ { connector_id := "C-002-1", type := "J1772", power_kw := (72 : Rat)/10,
            status := "available" },
          { connector_id := "C-002-2", type := "J1772", power_kw := (72 : Rat)/10,
            status := "available" } ]
      overall_status := "active" } ]

/-- Initial process state: seeded stations, empty session ledger. -/
def initState : State :=
  { stations := mock_stations_db, sessions := [] }

/-- One constructor per distinct HTTPException raise site in main.py. -/
inductive ApiError where
  | pastWindow
  | startNotBeforeEnd
  | stationNotFound (station_id : String)
  | connectorNotFound (connector_id station_id : String)
  | connectorNotAvailable (connector_id current_status : String)
  | overlap (connector_id station_id : String)
  | sessionNotFound
  | notReserved
  | notInProgress
  | onlyReservedCancellable
deriving Repr, DecidableEq

/-- HTTP status code attached to each raise site. -/
def ApiError.status_code : ApiError → Nat
  | .pastWindow => 400
  | .startNotBeforeEnd => 400
  | .stationNotFound _ => 404
  | .connectorNotFound _ _ => 404
  | .connectorNotAvailable _ _ => 409
  | .overlap _ _ => 409
  | .sessionNotFound => 404
  | .notReserved => 400
  | .notInProgress => 400
  | .onlyReservedCancellable => 400

/-- Model of `next((s for s in mock_stations_db if s.station_id == station_id), None)`. -/
def findStation (stations : List ChargingStation) (station_id : String) :
    Option ChargingStation :=
  stations.find? (fun s => s.station_id == station_id)

/-- Model of `next((c for c in target_station.connectors if c.connector_id == connector_id), None)`. -/
def findConnector (station : ChargingStation) (connector_id : String) :
    Option Connector :=
  station.connectors.find? (fun c => c.connector_id == connector_id)

/-- Model of `next((s for s in mock_sessions_db if s.session_id == session_id), None)`. -/
def findSession (sessions : List ChargingSession) (session_id : String) :
    Option ChargingSession :=
  sessions.find? (fun s => s.session_id == session_id)

/-- Whether one existing ledger session blocks the requested window: the body
of the loop in `check_connector_availability` (main.py lines 50-56). -/
def blocksWindow (station_id connector_id : String) (start_time end_time : Int)
    (s : ChargingSession) : Bool :=
  s.station_id == station_id && s.connector_id == connector_id &&
    (s.status == "reserved" || s.status == "in_progress") &&
    !(decide (end_time ≤ s.start_time) || decide (start_time ≥ s.expected_end_time))

/-- Model of `check_connector_availability` (main.py lines 43-57): scans the ledger and
returns false as soon as a blocking session is found, true otherwise. -/
def check_connector_availability (sessions : List ChargingSession)
    (station_id connector_id : String) (start_time end_time : Int) : Bool :=
  !(sessions.any (blocksWindow station_id connector_id start_time end_time))

/-- In-place mutation `target_connector.status = v` seen as a list operation:
only the first connector whose id matches is rewritten. -/
def setConnectorStatusFirst (conns : List Connector) (connector_id v : String) :
    List Connector :=
  match conns with
  | [] => []
  | c :: rest =>
      if c.connector_id == connector_id then { c with status := v } :: rest
      else c :: setConnectorStatusFirst rest connector_id v

/-- The nested station/connector update loops of main.py (with their breaks):
only the first station whose id matches is entered, and inside it only the
first matching connector has its status rewritten. -/
def updateConnectorInStations (stations : List ChargingStation)
    (station_id connector_id v : String) : List ChargingStation :=
  match stations with
  | [] => []
  | s :: rest =>
      if s.station_id == station_id then
        { s with connectors := setConnectorStatusFirst s.connectors connector_id v } :: rest
      else s :: updateConnectorInStations rest station_id connector_id v

/-- In-place mutation of the first ledger session whose id matches. -/
def updateSessionFirst (sessions : List ChargingSession) (session_id : String)
    (f : ChargingSession → ChargingSession) : List ChargingSession :=
  match sessions with
  | [] => []
  | s :: rest =>
      if s.session_id == session_id then f s :: rest
      else s :: updateSessionFirst rest session_id f

/-- Model of `create_charging_session` (main.py lines 78-147). `now` stands for the
clock reads during the call and `newId` for `str(uuid.uuid4())`. -/
def create_charging_session (st : State) (session_data : ChargingSessionCreate)
    (now : Int) (newId : String) :
    Except ApiError ChargingSession × State :=
  if session_data.expected_end_time ≤ now then
    (.error .pastWindow, st)
  else if session_data.start_time ≥ session_data.expected_end_time then
    (.error .startNotBeforeEnd, st)
  else
    match findStation st.stations session_data.station_id with
    | none => (.error (.stationNotFound session_data.station_id), st)
    | some target_station =>
        match findConnector target_station session_data.connector_id with
        | none =>
            (.error (.connectorNotFound session_data.connector_id
                       session_data.station_id), st)
        | some target_connector =>
            if target_connector.status ≠ "available" then
              (.error (.connectorNotAvailable session_data.connector_id
                         target_connector.status), st)
            else if check_connector_availability st.sessions
                session_data.station_id session_data.connector_id
                session_data.start_time session_data.expected_end_time = false then
              (.error (.overlap session_data.connector_id
                         session_data.station_id), st)
            else
              let new_session : ChargingSession :=
                { session_id := newId
                  station_id := session_data.station_id
                  connector_id := session_data.connector_id
                  user_id := session_data.user_id
                  start_time := session_data.start_time
                  expected_end_time := session_data.expected_end_time
                  actual_end_time := none
                  kwh_consumed := none
                  cost := none
                  status := "reserved"
                  created_at := now
                  updated_at := now }
              (.ok new_session,
                { stations := updateConnectorInStations st.stations
                    session_data.station_id session_data.connector_id "reserved"
                  sessions := st.sessions ++ [new_session] })

/-- Model of `start_charging_session` (main.py lines 155-175). -/
def start_charging_session (st : State) (session_id : String) (now : Int) :
    Except ApiError ChargingSession × State :=
  match findSession st.sessions session_id with
  | none => (.error .sessionNotFound, st)
  | some session =>
      if session.status ≠ "reserved" then (.error .notReserved, st)
      else
        let updated : ChargingSession :=
          { session with status := "in_progress", start_time := now,
                         updated_at := now }
        (.ok updated,
          { stations := updateConnectorInStations st.stations
              session.station_id session.connector_id "occupied"
            sessions := updateSessionFirst st.sessions session_id
              (fun s => { s with status := "in_progress", start_time := now,
                                 updated_at := now }) })

/-- Model of `end_charging_session` (main.py lines 178-200); `kwh_consumed` and `cost`
are the query parameters (default 0.0 supplied by the caller). -/
def end_charging_session (st : State) (session_id : String)
    (kwh_consumed cost : Rat) (now : Int) :
    Except ApiError ChargingSession × State :=
  match findSession st.sessions session_id with
  | none => (.error .sessionNotFound, st)
  | some session =>
      if session.status ≠ "in_progress" then (.error .notInProgress, st)
      else
        let updated : ChargingSession :=
          { session with status := "completed", actual_end_time := some now,
                         kwh_consumed := some kwh_consumed, cost := some cost,
                         updated_at := now }
        (.ok updated,
          { stations := updateConnectorInStations st.stations
              session.station_id session.connector_id "available"
            sessions := updateSessionFirst st.sessions session_id
              (fun s => { s with status := "completed", actual_end_time := some now,
                                 kwh_consumed := some kwh_consumed,
                                 cost := some cost, updated_at := now }) })

/-- Model of `cancel_charging_session` (main.py lines 203-226): the loop stops at the
first ledger session with the given id; it is cancelled when reserved,
otherwise the handler raises without touching later entries. -/
def cancel_charging_session (st : State) (session_id : String) (now : Int) :
    Except ApiError Unit × State :=
  match findSession st.sessions session_id with
  | none => (.error .sessionNotFound, st)
  | some session =>
      if session.status ≠ "reserved" then (.error .onlyReservedCancellable, st)
      else
        (.ok (),
          { stations := updateConnectorInStations st.stations
              session.station_id session.connector_id "available"
            sessions := updateSessionFirst st.sessions session_id
              (fun s => { s with status := "cancelled", updated_at := now }) })

/-- One API call, with its nondeterministic inputs (clock reads, uuid) made
explicit, for reasoning about reachable states. -/
inductive Op where
  | reserve (session_data : ChargingSessionCreate) (now : Int) (newId : String)
  | start (session_id : String) (now : Int)
  | finish (session_id : String) (kwh_consumed cost : Rat) (now : Int)
  | cancel (session_id : String) (now : Int)
deriving Repr, DecidableEq

/-- State reached after one API call (the response is discarded). -/
def applyOp (st : State) : Op → State
  | .reserve d now newId => (create_charging_session st d now newId).2
  | .start sid now => (start_charging_session st sid now).2
  | .finish sid kwh cost now => (end_charging_session st sid kwh cost now).2
  | .cancel sid now => (cancel_charging_session st sid now).2

/-- State reached after a sequence of API calls. -/
def runOps (st : State) : List Op → State
  | [] => st
  | op :: rest => runOps (applyOp st op) rest

/-- Status of the connector the code's lookup pattern resolves for a
(station_id, connector_id) pair: first matching station, then first matching
connector inside it. -/
def connectorStatusIn (stations : List ChargingStation)
    (station_id connector_id : String) : Option String :=
  match findStation stations station_id with
  | none => none
  | some s => (findConnector s connector_id).map (fun c => c.status)

/-- Station data with every connector status erased: used to state that a
lifecycle step changes nothing in the inventory but connector statuses. -/
def eraseStatuses (stations : List ChargingStation) : List ChargingStation :=
  stations.map (fun s =>
    { s with connectors := s.connectors.map (fun c => { c with status := "" }) })

/-- A one-station, one-connector inventory for evaluating theorems on
concrete data. -/
def sampleStation : ChargingStation :=
  { station_id := "S1", name := "s", location_coords := [], address := "a",
    owner := "o", is_public := true,
    connectors := [{ connector_id := "K1", type := "CCS1", power_kw := 1,
                     status := "available" }],
    overall_status := "active" }

def sampleState : State := { stations := [sampleStation], sessions := [] }

def sampleRequest : ChargingSessionCreate :=
  { station_id := "S1", connector_id := "K1", user_id := "U1",
    start_time := 0, expected_end_time := 10 }

/-- The session created by `sampleRequest` at instant 5 with id "id1". -/
def sampleReserved : ChargingSession :=
  { session_id := "id1", station_id := "S1", connector_id := "K1",
    user_id := "U1", start_time := 0, expected_end_time := 10,
    actual_end_time := none, kwh_consumed := none, cost := none,
    status := "reserved", created_at := 5, updated_at := 5 }

/-- The state after that reservation. -/
def sampleStateAfterReserve : State :=
  { stations :=
      [ { station_id := "S1", name := "s", location_coords := [],
          address := "a", owner := "o", is_public := true,
          connectors := [{ connector_id := "K1", type := "CCS1", power_kw := 1,
                           status := "reserved" }],
          overall_status := "active" } ],
    sessions := [sampleReserved] }

/-- The sample state after cancelling the reservation at instant 6. -/
def sampleCancelled : ChargingSession :=
  { sampleReserved with status := "cancelled", updated_at := 6 }

def sampleStateCancelled : State :=
  { stations := [sampleStation], sessions := [sampleCancelled] }

/-- The sample state after starting the reserved session at instant 8. -/
def sampleInProgress : ChargingSession :=
  { sampleReserved with status := "in_progress", start_time := 8,
                        updated_at := 8 }

def sampleStateStarted : State :=
  { stations :=
      [ { station_id := "S1", name := "s", location_coords := [],
          address := "a", owner := "o", is_public := true,
          connectors := [{ connector_id := "K1", type := "CCS1", power_kw := 1,
                           status := "occupied" }],
          overall_status := "active" } ],
    sessions := [sampleInProgress] }

/-- Every ledger session has a window satisfying
start_time < expected_end_time. -/
def WindowsOK (sessions : List ChargingSession) : Prop :=
  ∀ s ∈ sessions, s.start_time < s.expected_end_time

/-- A trace in which every start call happens strictly before the expected
end of the reservation it starts. -/
def StartsTimely : State → List Op → Prop
  | _, [] => True
  | st, op :: rest =>
      (match op with
       | .start sid now =>
           ∀ s, findSession st.sessions sid = some s → s.status = "reserved" →
             now < s.expected_end_time
       | _ => True) ∧ StartsTimely (applyOp st op) rest

/-- The concrete reserve request on the seeded inventory used to exercise the
reachable-state theorems. -/
def seedRequest : ChargingSessionCreate :=
  { station_id := "STN-001", connector_id := "C-001-1", user_id := "U1",
    start_time := 0, expected_end_time := 10 }

/-- The four statuses the operations can actually write. -/
def statusOk (s : ChargingSession) : Bool :=
  s.status == "reserved" || s.status == "in_progress" ||
    s.status == "completed" || s.status == "cancelled"

/-- A ledger session that is non-terminal (reserved or in_progress) for the
given (station_id, connector_id) pair. -/
def nonTerminalFor (sid cid : String) (s : ChargingSession) : Bool :=
  s.station_id == sid && s.connector_id == cid &&
    (s.status == "reserved" || s.status == "in_progress")

/-- Invariant coupling ledger and inventory: each connector pair has at most
one non-terminal session, and the connector referenced by any non-terminal
session resolves with status reserved or occupied. -/
def PairInv (st : State) : Prop :=
  (∀ sid cid, st.sessions.countP (nonTerminalFor sid cid) ≤ 1) ∧
  (∀ s ∈ st.sessions, s.status = "reserved" ∨ s.status = "in_progress" →
    connectorStatusIn st.stations s.station_id s.connector_id =
      some "reserved" ∨
    connectorStatusIn st.stations s.station_id s.connector_id =
      some "occupied")

/-- A second reserve request for the already-reserved seeded connector, with
a window disjoint from the first. -/
def seedRequest2 : ChargingSessionCreate :=
  { station_id := "STN-001", connector_id := "C-001-1", user_id := "U2",
    start_time := 20, expected_end_time := 30 }

/-- C1: the availability check returns false iff some ledger session for the
same (station_id, connector_id) with status reserved or in_progress has a
window overlapping [start, end) under half-open semantics (no overlap exactly
when end ≤ other.start_time or start ≥ other.expected_end_time).  The check is
a pure function of the ledger, so it mutates no state. -/
theorem check_connector_availability_false_iff_overlap
    (sessions : List ChargingSession) (station_id connector_id : String)
    (start_time end_time : Int) :
    check_connector_availability sessions station_id connector_id
        start_time end_time = false ↔
      ∃ s ∈ sessions, s.station_id = station_id ∧ s.connector_id = connector_id ∧
        (s.status = "reserved" ∨ s.status = "in_progress") ∧
        ¬(end_time ≤ s.start_time ∨ start_time ≥ s.expected_end_time) := by
  simp [check_connector_availability, blocksWindow, List.any_eq_true, not_or,
    and_assoc]

/-- C2: the reserve validation checks run in a fixed fail-fast order and the
first failing check determines the error: each of the six errors is returned
exactly when all earlier checks pass and that check fails, so a request
failing an earlier check never surfaces a later check error. -/
theorem create_charging_session_fail_fast (st : State)
    (d : ChargingSessionCreate) (now : Int) (newId : String) :
    ((create_charging_session st d now newId).1 = .error .pastWindow ↔
        d.expected_end_time ≤ now)
    ∧ ((create_charging_session st d now newId).1 = .error .startNotBeforeEnd ↔
        now < d.expected_end_time ∧ d.expected_end_time ≤ d.start_time)
    ∧ ((create_charging_session st d now newId).1 =
          .error (.stationNotFound d.station_id) ↔
        now < d.expected_end_time ∧ d.start_time < d.expected_end_time ∧
        findStation st.stations d.station_id = none)
    ∧ ((create_charging_session st d now newId).1 =
          .error (.connectorNotFound d.connector_id d.station_id) ↔
        now < d.expected_end_time ∧ d.start_time < d.expected_end_time ∧
        ∃ ts, findStation st.stations d.station_id = some ts ∧
          findConnector ts d.connector_id = none)
    ∧ (∀ cs, (create_charging_session st d now newId).1 =
          .error (.connectorNotAvailable d.connector_id cs) ↔
        now < d.expected_end_time ∧ d.start_time < d.expected_end_time ∧
        ∃ ts tc, findStation st.stations d.station_id = some ts ∧
          findConnector ts d.connector_id = some tc ∧ tc.status = cs ∧
          cs ≠ "available")
    ∧ ((create_charging_session st d now newId).1 =
          .error (.overlap d.connector_id d.station_id) ↔
        now < d.expected_end_time ∧ d.start_time < d.expected_end_time ∧
        ∃ ts tc, findStation st.stations d.station_id = some ts ∧
          findConnector ts d.connector_id = some tc ∧ tc.status = "available" ∧
          check_connector_availability st.sessions d.station_id d.connector_id
            d.start_time d.expected_end_time = false) := by
  by_cases h1 : d.expected_end_time ≤ now
  · simp [create_charging_session, h1, not_lt.2 h1]
  · by_cases h2 : d.start_time ≥ d.expected_end_time
    · simp [create_charging_session, h1, h2, not_le.1 h1, not_lt.2 h2]
    · cases hs : findStation st.stations d.station_id with
      | none =>
          simp [create_charging_session, h1, h2, hs, not_le.1 h1, not_le.1 h2]
      | some ts =>
          cases hc : findConnector ts d.connector_id with
          | none =>
              simp [create_charging_session, h1, h2, hs, hc,
                not_le.1 h1, not_le.1 h2]
          | some tc =>
              by_cases hav : tc.status = "available"
              · cases hchk : check_connector_availability st.sessions
                    d.station_id d.connector_id d.start_time
                    d.expected_end_time with
                | false =>
                    simp [create_charging_session, h1, h2, hs, hc, hav, hchk,
                      not_le.1 h1, not_le.1 h2]
                | true =>
                    simp [create_charging_session, h1, h2, hs, hc, hav, hchk,
                      not_le.1 h1, not_le.1 h2]
              · simp only [create_charging_session, hs, hc, if_neg h1,
                  if_neg h2, if_pos hav]
                constructor
                · simp [h1]
                refine ⟨by simp [not_le.1 h1, h2], by simp, by simp [hc],
                  ?_, by simp [hc, hav]⟩
                intro cs
                simp [not_le.1 h1, not_le.1 h2, hc]
                intro h
                exact h ▸ hav

theorem find_setConnectorStatusFirst_self (conns : List Connector)
    (cid v : String) :
    (setConnectorStatusFirst conns cid v).find? (fun c => c.connector_id == cid) =
      (conns.find? (fun c => c.connector_id == cid)).map
        (fun c => { c with status := v }) := by
  induction conns with
  | nil => simp [setConnectorStatusFirst]
  | cons c rest ih =>
      by_cases h : c.connector_id = cid
      · simp [setConnectorStatusFirst, h]
      · simp [setConnectorStatusFirst, h, ih]

theorem find_setConnectorStatusFirst_other (conns : List Connector)
    (cid v cid' : String) (hne : cid' ≠ cid) :
    (setConnectorStatusFirst conns cid v).find? (fun c => c.connector_id == cid') =
      conns.find? (fun c => c.connector_id == cid') := by
  induction conns with
  | nil => simp [setConnectorStatusFirst]
  | cons c rest ih =>
      by_cases h : c.connector_id = cid
      · have : ¬c.connector_id = cid' := by
          rw [h]
          exact fun hh => hne hh.symm
        simp [setConnectorStatusFirst, h, this, Ne.symm hne]
      · by_cases h' : c.connector_id = cid'
        · simp [setConnectorStatusFirst, h, h', hne]
        · simp [setConnectorStatusFirst, h, h', ih]

theorem map_strip_setConnectorStatusFirst (conns : List Connector)
    (cid v : String) :
    (setConnectorStatusFirst conns cid v).map (fun c => { c with status := "" }) =
      conns.map (fun c => { c with status := "" }) := by
  induction conns with
  | nil => simp [setConnectorStatusFirst]
  | cons c rest ih =>
      by_cases h : c.connector_id = cid
      · simp [setConnectorStatusFirst, h]
      · simp [setConnectorStatusFirst, h, ih]

theorem findStation_updateConnectorInStations_self
    (stations : List ChargingStation) (sid cid v : String) :
    findStation (updateConnectorInStations stations sid cid v) sid =
      (findStation stations sid).map
        (fun s => { s with connectors := setConnectorStatusFirst s.connectors cid v }) := by
  induction stations with
  | nil => simp [findStation, updateConnectorInStations]
  | cons s rest ih =>
      by_cases h : s.station_id = sid
      · simp [findStation, updateConnectorInStations, h]
      · simp [findStation, updateConnectorInStations, h] at ih ⊢
        exact ih

theorem findStation_updateConnectorInStations_other
    (stations : List ChargingStation) (sid cid v sid' : String) (hne : sid' ≠ sid) :
    findStation (updateConnectorInStations stations sid cid v) sid' =
      findStation stations sid' := by
  induction stations with
  | nil => simp [findStation, updateConnectorInStations]
  | cons s rest ih =>
      by_cases h : s.station_id = sid
      · have : ¬s.station_id = sid' := by
          rw [h]
          exact fun hh => hne hh.symm
        simp [findStation, updateConnectorInStations, h, this, Ne.symm hne]
      · by_cases h' : s.station_id = sid'
        · simp [findStation, updateConnectorInStations, h, h', hne]
        · simp [findStation, updateConnectorInStations, h, h'] at ih ⊢
          exact ih

theorem eraseStatuses_updateConnectorInStations
    (stations : List ChargingStation) (sid cid v : String) :
    eraseStatuses (updateConnectorInStations stations sid cid v) =
      eraseStatuses stations := by
  induction stations with
  | nil => simp [eraseStatuses, updateConnectorInStations]
  | cons s rest ih =>
      by_cases h : s.station_id = sid
      · simp [eraseStatuses, updateConnectorInStations, h,
          map_strip_setConnectorStatusFirst]
      · simp [eraseStatuses, updateConnectorInStations, h] at ih ⊢
        exact ih

theorem connectorStatusIn_update_self (stations : List ChargingStation)
    (sid cid v : String) :
    connectorStatusIn (updateConnectorInStations stations sid cid v) sid cid =
      (connectorStatusIn stations sid cid).map (fun _ => v) := by
  unfold connectorStatusIn
  rw [findStation_updateConnectorInStations_self]
  cases hs : findStation stations sid with
  | none => simp
  | some s =>
      simp [findConnector, find_setConnectorStatusFirst_self]
      cases hc : s.connectors.find? (fun c => c.connector_id == cid) with
      | none => simp
      | some tc => simp

theorem connectorStatusIn_update_other (stations : List ChargingStation)
    (sid cid v sid' cid' : String) (hne : ¬(sid' = sid ∧ cid' = cid)) :
    connectorStatusIn (updateConnectorInStations stations sid cid v) sid' cid' =
      connectorStatusIn stations sid' cid' := by
  unfold connectorStatusIn
  by_cases hsid : sid' = sid
  · subst hsid
    have hcid : cid' ≠ cid := fun hh => hne ⟨rfl, hh⟩
    rw [findStation_updateConnectorInStations_self]
    cases hs : findStation stations sid' with
    | none => simp
    | some s =>
        simp [findConnector, find_setConnectorStatusFirst_other _ _ _ _ hcid]
  · rw [findStation_updateConnectorInStations_other _ _ _ _ _ hsid]

/-- C3: a reserve request that passes all validation appends exactly one new
session built from the request with status reserved and created_at =
updated_at, sets the target connector to reserved, leaves every other session
and every other connector untouched, and returns the created session.  The
freshness of `str(uuid.uuid4())` is modelled by the hypothesis `hfresh` on the
caller-supplied id. -/
theorem create_charging_session_ok (st : State) (d : ChargingSessionCreate)
    (now : Int) (newId : String) (sess : ChargingSession) (st' : State)
    (hfresh : ∀ s ∈ st.sessions, s.session_id ≠ newId)
    (hok : create_charging_session st d now newId = (.ok sess, st')) :
    sess.session_id = newId ∧
    (∀ s ∈ st.sessions, s.session_id ≠ sess.session_id) ∧
    sess.station_id = d.station_id ∧ sess.connector_id = d.connector_id ∧
    sess.user_id = d.user_id ∧ sess.start_time = d.start_time ∧
    sess.expected_end_time = d.expected_end_time ∧ sess.status = "reserved" ∧
    sess.created_at = now ∧ sess.updated_at = now ∧
    st'.sessions = st.sessions ++ [sess] ∧
    connectorStatusIn st'.stations d.station_id d.connector_id =
      some "reserved" ∧
    (∀ sid cid, ¬(sid = d.station_id ∧ cid = d.connector_id) →
      connectorStatusIn st'.stations sid cid =
        connectorStatusIn st.stations sid cid) ∧
    eraseStatuses st'.stations = eraseStatuses st.stations := by
  unfold create_charging_session at hok
  by_cases h1 : d.expected_end_time ≤ now
  · simp [h1] at hok
  by_cases h2 : d.start_time ≥ d.expected_end_time
  · simp [h1, h2] at hok
  cases hs : findStation st.stations d.station_id with
  | none => simp [h1, h2, hs] at hok
  | some ts =>
  cases hc : findConnector ts d.connector_id with
  | none => simp [h1, h2, hs, hc] at hok
  | some tc =>
  by_cases hav : tc.status = "available"
  case neg => simp [h1, h2, hs, hc, hav] at hok
  case pos =>
  cases hchk : check_connector_availability st.sessions d.station_id
      d.connector_id d.start_time d.expected_end_time with
  | false => simp [h1, h2, hs, hc, hav, hchk] at hok
  | true =>
      simp [h1, h2, hs, hc, hav, hchk, Prod.ext_iff] at hok
      obtain ⟨hsess, hst⟩ := hok
      subst hsess
      subst hst
      refine ⟨rfl, hfresh, rfl, rfl, rfl, rfl, rfl, rfl, rfl, rfl, rfl,
        ?_, ?_, ?_⟩
      · rw [connectorStatusIn_update_self]
        simp [connectorStatusIn, hs, hc]
      · exact fun sid cid hne =>
          connectorStatusIn_update_other st.stations _ _ _ _ _ hne
      · exact eraseStatuses_updateConnectorInStations st.stations _ _ _

/-- Witness for C3 at a concrete reservation. -/
theorem create_charging_session_ok_witness :
    sampleReserved.session_id = "id1" ∧
    sampleStateAfterReserve.sessions = sampleState.sessions ++ [sampleReserved] ∧
    connectorStatusIn sampleStateAfterReserve.stations "S1" "K1" =
      some "reserved" := by
  have h := create_charging_session_ok sampleState sampleRequest 5 "id1"
      sampleReserved sampleStateAfterReserve (by simp [sampleState]) rfl
  obtain ⟨w1, w2, w3, w4, w5, w6, w7, w8, w9, w10, w11, w12, w13, w14⟩ := h
  exact ⟨w1, w11, w12⟩

theorem findSession_updateSessionFirst (sessions : List ChargingSession)
    (sid : String) (f : ChargingSession → ChargingSession)
    (hf : ∀ s, (f s).session_id = s.session_id) :
    findSession (updateSessionFirst sessions sid f) sid =
      (findSession sessions sid).map f := by
  induction sessions with
  | nil => simp [findSession, updateSessionFirst]
  | cons s rest ih =>
      by_cases h : s.session_id = sid
      · simp [findSession, updateSessionFirst, h, hf s, List.find?_cons]
      · simp [findSession, updateSessionFirst, h] at ih ⊢
        exact ih

theorem mem_updateSessionFirst (sessions : List ChargingSession) (sid : String)
    (f : ChargingSession → ChargingSession) (x : ChargingSession)
    (hx : x ∈ updateSessionFirst sessions sid f) :
    x ∈ sessions ∨ ∃ s, findSession sessions sid = some s ∧ x = f s := by
  induction sessions with
  | nil => simp [updateSessionFirst] at hx
  | cons s rest ih =>
      by_cases h : s.session_id = sid
      · simp [updateSessionFirst, h] at hx
        rcases hx with hx | hx
        · exact Or.inr ⟨s, by simp [findSession, h], hx⟩
        · exact Or.inl (List.mem_cons_of_mem _ hx)
      · simp [updateSessionFirst, h] at hx
        rcases hx with hx | hx
        · exact Or.inl (by simp [hx])
        · rcases ih hx with hmem | ⟨t, ht, hxt⟩
          · exact Or.inl (List.mem_cons_of_mem _ hmem)
          · exact Or.inr ⟨t, by simp [findSession, h] at ht ⊢; exact ht, hxt⟩

/-- C4: start, end and cancel fail with NotFound (404) exactly when no ledger
session carries the id, and with the InvalidTransition error of their raise
site (400) exactly when the first session with that id is not in the required
status (reserved for start, in_progress for end, reserved for cancel); in
particular a second cancel of the same session fails with InvalidTransition
and leaves the state of the first cancel untouched. -/
theorem lifecycle_transition_errors (st : State) (session_id : String)
    (now : Int) (kwh cost : Rat) :
    ((start_charging_session st session_id now).1 = .error .sessionNotFound ↔
      findSession st.sessions session_id = none)
    ∧ (∀ s, findSession st.sessions session_id = some s →
        ((start_charging_session st session_id now).1 = .error .notReserved ↔
          s.status ≠ "reserved"))
    ∧ ((end_charging_session st session_id kwh cost now).1 =
          .error .sessionNotFound ↔
        findSession st.sessions session_id = none)
    ∧ (∀ s, findSession st.sessions session_id = some s →
        ((end_charging_session st session_id kwh cost now).1 =
            .error .notInProgress ↔
          s.status ≠ "in_progress"))
    ∧ ((cancel_charging_session st session_id now).1 = .error .sessionNotFound ↔
      findSession st.sessions session_id = none)
    ∧ (∀ s, findSession st.sessions session_id = some s →
        ((cancel_charging_session st session_id now).1 =
            .error .onlyReservedCancellable ↔
          s.status ≠ "reserved"))
    ∧ (∀ st₁ now₂, cancel_charging_session st session_id now = (.ok (), st₁) →
        cancel_charging_session st₁ session_id now₂ =
          (.error .onlyReservedCancellable, st₁)) := by
  refine ⟨?_, ?_, ?_, ?_, ?_, ?_, ?_⟩
  · cases hs : findSession st.sessions session_id with
    | none => simp [start_charging_session, hs]
    | some s =>
        by_cases h : s.status = "reserved" <;>
          simp [start_charging_session, hs, h]
  · intro s hs
    by_cases h : s.status = "reserved" <;>
      simp [start_charging_session, hs, h]
  · cases hs : findSession st.sessions session_id with
    | none => simp [end_charging_session, hs]
    | some s =>
        by_cases h : s.status = "in_progress" <;>
          simp [end_charging_session, hs, h]
  · intro s hs
    by_cases h : s.status = "in_progress" <;>
      simp [end_charging_session, hs, h]
  · cases hs : findSession st.sessions session_id with
    | none => simp [cancel_charging_session, hs]
    | some s =>
        by_cases h : s.status = "reserved" <;>
          simp [cancel_charging_session, hs, h]
  · intro s hs
    by_cases h : s.status = "reserved" <;>
      simp [cancel_charging_session, hs, h]
  · intro st₁ now₂ hok
    unfold cancel_charging_session at hok
    cases hs : findSession st.sessions session_id with
    | none => simp [hs] at hok
    | some s =>
        by_cases h : s.status = "reserved"
        · simp [hs, h, Prod.ext_iff] at hok
          subst hok
          have hfind : findSession (updateSessionFirst st.sessions session_id
              (fun t => { t with status := "cancelled", updated_at := now }))
              session_id =
              some { s with status := "cancelled", updated_at := now } := by
            rw [findSession_updateSessionFirst st.sessions session_id
              (fun t => { t with status := "cancelled", updated_at := now })
              (fun t => rfl), hs]
            rfl
          simp [cancel_charging_session, hfind]
        · simp [hs, h] at hok

/-- Witness for C4: a concrete double cancel, the second failing with the
InvalidTransition error while the first cancel state stands. -/
theorem lifecycle_transition_errors_witness :
    cancel_charging_session sampleStateCancelled "id1" 7 =
      (.error .onlyReservedCancellable, sampleStateCancelled) := by
  exact (lifecycle_transition_errors sampleStateAfterReserve "id1" 6 0 0).2.2.2.2.2.2
    sampleStateCancelled 7 rfl

theorem create_ok_inv (st : State) (d : ChargingSessionCreate) (now : Int)
    (newId : String) (sess : ChargingSession) (st' : State)
    (hok : create_charging_session st d now newId = (.ok sess, st')) :
    ∃ ts tc, now < d.expected_end_time ∧ d.start_time < d.expected_end_time ∧
      findStation st.stations d.station_id = some ts ∧
      findConnector ts d.connector_id = some tc ∧ tc.status = "available" ∧
      check_connector_availability st.sessions d.station_id d.connector_id
        d.start_time d.expected_end_time = true ∧
      sess = { session_id := newId, station_id := d.station_id,
               connector_id := d.connector_id, user_id := d.user_id,
               start_time := d.start_time,
               expected_end_time := d.expected_end_time,
               actual_end_time := none, kwh_consumed := none, cost := none,
               status := "reserved", created_at := now, updated_at := now } ∧
      st' = { stations := updateConnectorInStations st.stations d.station_id
                d.connector_id "reserved",
              sessions := st.sessions ++ [sess] } := by
  unfold create_charging_session at hok
  by_cases h1 : d.expected_end_time ≤ now
  · simp [h1] at hok
  by_cases h2 : d.start_time ≥ d.expected_end_time
  · simp [h1, h2] at hok
  cases hs : findStation st.stations d.station_id with
  | none => simp [h1, h2, hs] at hok
  | some ts =>
  cases hc : findConnector ts d.connector_id with
  | none => simp [h1, h2, hs, hc] at hok
  | some tc =>
  by_cases hav : tc.status = "available"
  case neg => simp [h1, h2, hs, hc, hav] at hok
  case pos =>
  cases hchk : check_connector_availability st.sessions d.station_id
      d.connector_id d.start_time d.expected_end_time with
  | false => simp [h1, h2, hs, hc, hav, hchk] at hok
  | true =>
      simp [h1, h2, hs, hc, hav, hchk, Prod.ext_iff] at hok
      obtain ⟨hsess, hst⟩ := hok
      exact ⟨ts, tc, not_le.1 h1, not_le.1 h2, rfl, hc, hav, rfl,
        hsess.symm, by rw [← hst, ← hsess]⟩

theorem start_ok_inv (st : State) (sid : String) (now : Int)
    (sess : ChargingSession) (st' : State)
    (hok : start_charging_session st sid now = (.ok sess, st')) :
    ∃ s, findSession st.sessions sid = some s ∧ s.status = "reserved" ∧
      sess = { s with status := "in_progress", start_time := now,
                      updated_at := now } ∧
      st' = { stations := updateConnectorInStations st.stations s.station_id
                s.connector_id "occupied",
              sessions := updateSessionFirst st.sessions sid
                (fun t => { t with status := "in_progress", start_time := now,
                                   updated_at := now }) } := by
  unfold start_charging_session at hok
  cases hs : findSession st.sessions sid with
  | none => simp [hs] at hok
  | some s =>
      by_cases h : s.status = "reserved"
      · simp [hs, h, Prod.ext_iff] at hok
        exact ⟨s, rfl, h, hok.1.symm, hok.2.symm⟩
      · simp [hs, h] at hok

theorem end_ok_inv (st : State) (sid : String) (kwh cost : Rat) (now : Int)
    (sess : ChargingSession) (st' : State)
    (hok : end_charging_session st sid kwh cost now = (.ok sess, st')) :
    ∃ s, findSession st.sessions sid = some s ∧ s.status = "in_progress" ∧
      sess = { s with status := "completed", actual_end_time := some now,
                      kwh_consumed := some kwh, cost := some cost,
                      updated_at := now } ∧
      st' = { stations := updateConnectorInStations st.stations s.station_id
                s.connector_id "available",
              sessions := updateSessionFirst st.sessions sid
                (fun t => { t with status := "completed",
                                   actual_end_time := some now,
                                   kwh_consumed := some kwh, cost := some cost,
                                   updated_at := now }) } := by
  unfold end_charging_session at hok
  cases hs : findSession st.sessions sid with
  | none => simp [hs] at hok
  | some s =>
      by_cases h : s.status = "in_progress"
      · simp [hs, h, Prod.ext_iff] at hok
        exact ⟨s, rfl, h, hok.1.symm, hok.2.symm⟩
      · simp [hs, h] at hok

theorem cancel_ok_inv (st : State) (sid : String) (now : Int) (st' : State)
    (hok : cancel_charging_session st sid now = (.ok (), st')) :
    ∃ s, findSession st.sessions sid = some s ∧ s.status = "reserved" ∧
      st' = { stations := updateConnectorInStations st.stations s.station_id
                s.connector_id "available",
              sessions := updateSessionFirst st.sessions sid
                (fun t => { t with status := "cancelled",
                                   updated_at := now }) } := by
  unfold cancel_charging_session at hok
  cases hs : findSession st.sessions sid with
  | none => simp [hs] at hok
  | some s =>
      by_cases h : s.status = "reserved"
      · simp [hs, h, Prod.ext_iff] at hok
        exact ⟨s, rfl, h, hok.symm⟩
      · simp [hs, h] at hok

/-- C5: after each successful lifecycle operation the affected session and the
connector it references carry matching statuses: reserved/reserved after
reserve, in_progress/occupied after start, completed/available after end, and
cancelled/available after cancel; both changes happen in the same operation.
For start, end and cancel the connector conclusion is stated under the
hypothesis that the session's (station_id, connector_id) pair resolves to a
connector (guaranteed in reachable states, where sessions are only created by
reserve after a successful lookup). -/
theorem session_connector_lockstep (st : State) (d : ChargingSessionCreate)
    (sid : String) (now : Int) (newId : String) (kwh cost : Rat) :
    (∀ sess st', create_charging_session st d now newId = (.ok sess, st') →
      sess.status = "reserved" ∧
      connectorStatusIn st'.stations sess.station_id sess.connector_id =
        some "reserved")
    ∧ (∀ sess st', start_charging_session st sid now = (.ok sess, st') →
        (connectorStatusIn st.stations sess.station_id
            sess.connector_id).isSome →
        sess.status = "in_progress" ∧
        findSession st'.sessions sid = some sess ∧
        connectorStatusIn st'.stations sess.station_id sess.connector_id =
          some "occupied")
    ∧ (∀ sess st', end_charging_session st sid kwh cost now = (.ok sess, st') →
        (connectorStatusIn st.stations sess.station_id
            sess.connector_id).isSome →
        sess.status = "completed" ∧
        findSession st'.sessions sid = some sess ∧
        connectorStatusIn st'.stations sess.station_id sess.connector_id =
          some "available")
    ∧ (∀ st', cancel_charging_session st sid now = (.ok (), st') →
        ∃ sess, findSession st'.sessions sid = some sess ∧
          sess.status = "cancelled" ∧
          ((connectorStatusIn st.stations sess.station_id
              sess.connector_id).isSome →
            connectorStatusIn st'.stations sess.station_id sess.connector_id =
              some "available")) := by
  refine ⟨?_, ?_, ?_, ?_⟩
  · intro sess st' hok
    obtain ⟨ts, tc, _, _, hs, hc, hav, _, hsess, hst⟩ :=
      create_ok_inv st d now newId sess st' hok
    subst hsess
    subst hst
    refine ⟨rfl, ?_⟩
    show connectorStatusIn (updateConnectorInStations st.stations d.station_id
      d.connector_id "reserved") d.station_id d.connector_id = some "reserved"
    rw [connectorStatusIn_update_self]
    simp [connectorStatusIn, hs, hc]
  · intro sess st' hok hsome
    obtain ⟨s, hs, hres, hsess, hst⟩ := start_ok_inv st sid now sess st' hok
    subst hsess
    subst hst
    refine ⟨rfl, ?_, ?_⟩
    · show findSession (updateSessionFirst st.sessions sid
        (fun t => { t with status := "in_progress", start_time := now,
                           updated_at := now })) sid = _
      rw [findSession_updateSessionFirst st.sessions sid
        (fun t => { t with status := "in_progress", start_time := now,
                           updated_at := now }) (fun t => rfl), hs]
      rfl
    · show connectorStatusIn (updateConnectorInStations st.stations
        s.station_id s.connector_id "occupied") s.station_id s.connector_id =
        some "occupied"
      rw [connectorStatusIn_update_self]
      obtain ⟨v, hv⟩ := Option.isSome_iff_exists.1 hsome
      rw [show connectorStatusIn st.stations s.station_id s.connector_id =
        some v from hv]
      rfl
  · intro sess st' hok hsome
    obtain ⟨s, hs, hres, hsess, hst⟩ := end_ok_inv st sid kwh cost now sess st' hok
    subst hsess
    subst hst
    refine ⟨rfl, ?_, ?_⟩
    · show findSession (updateSessionFirst st.sessions sid
        (fun t => { t with status := "completed", actual_end_time := some now,
                           kwh_consumed := some kwh, cost := some cost,
                           updated_at := now })) sid = _
      rw [findSession_updateSessionFirst st.sessions sid
        (fun t => { t with status := "completed", actual_end_time := some now,
                           kwh_consumed := some kwh, cost := some cost,
                           updated_at := now }) (fun t => rfl), hs]
      rfl
    · show connectorStatusIn (updateConnectorInStations st.stations
        s.station_id s.connector_id "available") s.station_id s.connector_id =
        some "available"
      rw [connectorStatusIn_update_self]
      obtain ⟨v, hv⟩ := Option.isSome_iff_exists.1 hsome
      rw [show connectorStatusIn st.stations s.station_id s.connector_id =
        some v from hv]
      rfl
  · intro st' hok
    obtain ⟨s, hs, hres, hst⟩ := cancel_ok_inv st sid now st' hok
    subst hst
    refine ⟨{ s with status := "cancelled", updated_at := now }, ?_, rfl, ?_⟩
    · show findSession (updateSessionFirst st.sessions sid
        (fun t => { t with status := "cancelled", updated_at := now })) sid = _
      rw [findSession_updateSessionFirst st.sessions sid
        (fun t => { t with status := "cancelled", updated_at := now })
        (fun t => rfl), hs]
      rfl
    · intro hsome
      show connectorStatusIn (updateConnectorInStations st.stations
        s.station_id s.connector_id "available") s.station_id s.connector_id =
        some "available"
      rw [connectorStatusIn_update_self]
      obtain ⟨v, hv⟩ := Option.isSome_iff_exists.1 hsome
      rw [show connectorStatusIn st.stations s.station_id s.connector_id =
        some v from hv]
      rfl

/-- Witness for C5: a concrete start flips the session to in_progress and the
connector to occupied in the same step. -/
theorem session_connector_lockstep_witness :
    sampleInProgress.status = "in_progress" ∧
    findSession sampleStateStarted.sessions "id1" = some sampleInProgress ∧
    connectorStatusIn sampleStateStarted.stations "S1" "K1" =
      some "occupied" := by
  exact (session_connector_lockstep sampleStateAfterReserve sampleRequest
    "id1" 8 "unused" 0 0).2.1 sampleInProgress sampleStateStarted rfl rfl

/-- C6: every mutating operation is atomic with respect to failure: whenever
it returns an error, the resulting state (ledger and all connector statuses)
is exactly the state before the call; whenever it succeeds, its mutations are
visible in the resulting state. -/
theorem mutating_operations_atomic (st : State) (d : ChargingSessionCreate)
    (sid : String) (now : Int) (newId : String) (kwh cost : Rat) :
    (∀ e, (create_charging_session st d now newId).1 = .error e →
      (create_charging_session st d now newId).2 = st)
    ∧ (∀ e, (start_charging_session st sid now).1 = .error e →
        (start_charging_session st sid now).2 = st)
    ∧ (∀ e, (end_charging_session st sid kwh cost now).1 = .error e →
        (end_charging_session st sid kwh cost now).2 = st)
    ∧ (∀ e, (cancel_charging_session st sid now).1 = .error e →
        (cancel_charging_session st sid now).2 = st)
    ∧ (∀ sess st', create_charging_session st d now newId = (.ok sess, st') →
        st'.sessions = st.sessions ++ [sess] ∧
        connectorStatusIn st'.stations d.station_id d.connector_id =
          some "reserved")
    ∧ (∀ sess st', start_charging_session st sid now = (.ok sess, st') →
        findSession st'.sessions sid = some sess)
    ∧ (∀ sess st', end_charging_session st sid kwh cost now = (.ok sess, st') →
        findSession st'.sessions sid = some sess)
    ∧ (∀ st', cancel_charging_session st sid now = (.ok (), st') →
        ∃ sess, findSession st'.sessions sid = some sess ∧
          sess.status = "cancelled") := by
  refine ⟨?_, ?_, ?_, ?_, ?_, ?_, ?_, ?_⟩
  · intro e he
    unfold create_charging_session at he ⊢
    by_cases h1 : d.expected_end_time ≤ now
    · simp [h1]
    by_cases h2 : d.start_time ≥ d.expected_end_time
    · simp [h1, h2]
    cases hs : findStation st.stations d.station_id with
    | none => simp [h1, h2, hs]
    | some ts =>
    cases hc : findConnector ts d.connector_id with
    | none => simp [h1, h2, hs, hc]
    | some tc =>
    by_cases hav : tc.status = "available"
    case neg => simp [h1, h2, hs, hc, hav]
    case pos =>
    cases hchk : check_connector_availability st.sessions d.station_id
        d.connector_id d.start_time d.expected_end_time with
    | false => simp [h1, h2, hs, hc, hav, hchk]
    | true => simp [h1, h2, hs, hc, hav, hchk] at he
  · intro e he
    unfold start_charging_session at he ⊢
    cases hs : findSession st.sessions sid with
    | none => simp [hs]
    | some s =>
        by_cases h : s.status = "reserved"
        · simp [hs, h] at he
        · simp [hs, h]
  · intro e he
    unfold end_charging_session at he ⊢
    cases hs : findSession st.sessions sid with
    | none => simp [hs]
    | some s =>
        by_cases h : s.status = "in_progress"
        · simp [hs, h] at he
        · simp [hs, h]
  · intro e he
    unfold cancel_charging_session at he ⊢
    cases hs : findSession st.sessions sid with
    | none => simp [hs]
    | some s =>
        by_cases h : s.status = "reserved"
        · simp [hs, h] at he
        · simp [hs, h]
  · intro sess st' hok
    obtain ⟨ts, tc, _, _, hs, hc, hav, _, hsess, hst⟩ :=
      create_ok_inv st d now newId sess st' hok
    subst hst
    refine ⟨rfl, ?_⟩
    show connectorStatusIn (updateConnectorInStations st.stations d.station_id
      d.connector_id "reserved") d.station_id d.connector_id = some "reserved"
    rw [connectorStatusIn_update_self]
    simp [connectorStatusIn, hs, hc]
  · intro sess st' hok
    obtain ⟨s, hs, hres, hsess, hst⟩ := start_ok_inv st sid now sess st' hok
    subst hsess
    subst hst
    show findSession (updateSessionFirst st.sessions sid
      (fun t => { t with status := "in_progress", start_time := now,
                         updated_at := now })) sid = _
    rw [findSession_updateSessionFirst st.sessions sid
      (fun t => { t with status := "in_progress", start_time := now,
                         updated_at := now }) (fun t => rfl), hs]
    rfl
  · intro sess st' hok
    obtain ⟨s, hs, hres, hsess, hst⟩ := end_ok_inv st sid kwh cost now sess st' hok
    subst hsess
    subst hst
    show findSession (updateSessionFirst st.sessions sid
      (fun t => { t with status := "completed", actual_end_time := some now,
                         kwh_consumed := some kwh, cost := some cost,
                         updated_at := now })) sid = _
    rw [findSession_updateSessionFirst st.sessions sid
      (fun t => { t with status := "completed", actual_end_time := some now,
                         kwh_consumed := some kwh, cost := some cost,
                         updated_at := now }) (fun t => rfl), hs]
    rfl
  · intro st' hok
    obtain ⟨s, hs, hres, hst⟩ := cancel_ok_inv st sid now st' hok
    subst hst
    refine ⟨{ s with status := "cancelled", updated_at := now }, ?_, rfl⟩
    show findSession (updateSessionFirst st.sessions sid
      (fun t => { t with status := "cancelled", updated_at := now })) sid = _
    rw [findSession_updateSessionFirst st.sessions sid
      (fun t => { t with status := "cancelled", updated_at := now })
      (fun t => rfl), hs]
    rfl

/-- Witness for C6: reserving with an expected end in the past fails with
InvalidWindow and mutates nothing. -/
theorem mutating_operations_atomic_witness :
    (create_charging_session sampleState
        { station_id := "S1", connector_id := "K1", user_id := "U1",
          start_time := 0, expected_end_time := 10 } 20 "id9").2 =
      sampleState := by
  exact (mutating_operations_atomic sampleState
    { station_id := "S1", connector_id := "K1", user_id := "U1",
      start_time := 0, expected_end_time := 10 } "id1" 20 "id9" 0 0).1
    .pastWindow rfl

theorem findSession_mem (sessions : List ChargingSession) (sid : String)
    (s : ChargingSession) (h : findSession sessions sid = some s) :
    s ∈ sessions :=
  List.mem_of_find?_eq_some h

theorem create_error_inv (st : State) (d : ChargingSessionCreate) (now : Int)
    (newId : String) (e : ApiError) (st' : State)
    (h : create_charging_session st d now newId = (.error e, st')) :
    st' = st := by
  unfold create_charging_session at h
  by_cases h1 : d.expected_end_time ≤ now
  · simp [h1, Prod.ext_iff] at h
    exact h.2.symm
  by_cases h2 : d.start_time ≥ d.expected_end_time
  · simp [h1, h2, Prod.ext_iff] at h
    exact h.2.symm
  cases hs : findStation st.stations d.station_id with
  | none =>
      simp [h1, h2, hs, Prod.ext_iff] at h
      exact h.2.symm
  | some ts =>
  cases hc : findConnector ts d.connector_id with
  | none =>
      simp [h1, h2, hs, hc, Prod.ext_iff] at h
      exact h.2.symm
  | some tc =>
  by_cases hav : tc.status = "available"
  case neg =>
      simp [h1, h2, hs, hc, hav, Prod.ext_iff] at h
      exact h.2.symm
  case pos =>
  cases hchk : check_connector_availability st.sessions d.station_id
      d.connector_id d.start_time d.expected_end_time with
  | false =>
      simp [h1, h2, hs, hc, hav, hchk, Prod.ext_iff] at h
      exact h.2.symm
  | true => simp [h1, h2, hs, hc, hav, hchk] at h

theorem start_error_inv (st : State) (sid : String) (now : Int) (e : ApiError)
    (st' : State) (h : start_charging_session st sid now = (.error e, st')) :
    st' = st := by
  unfold start_charging_session at h
  cases hs : findSession st.sessions sid with
  | none =>
      simp [hs, Prod.ext_iff] at h
      exact h.2.symm
  | some s =>
      by_cases hr : s.status = "reserved"
      · simp [hs, hr] at h
      · simp [hs, hr, Prod.ext_iff] at h
        exact h.2.symm

theorem end_error_inv (st : State) (sid : String) (kwh cost : Rat) (now : Int)
    (e : ApiError) (st' : State)
    (h : end_charging_session st sid kwh cost now = (.error e, st')) :
    st' = st := by
  unfold end_charging_session at h
  cases hs : findSession st.sessions sid with
  | none =>
      simp [hs, Prod.ext_iff] at h
      exact h.2.symm
  | some s =>
      by_cases hr : s.status = "in_progress"
      · simp [hs, hr] at h
      · simp [hs, hr, Prod.ext_iff] at h
        exact h.2.symm

theorem cancel_error_inv (st : State) (sid : String) (now : Int) (e : ApiError)
    (st' : State) (h : cancel_charging_session st sid now = (.error e, st')) :
    st' = st := by
  unfold cancel_charging_session at h
  cases hs : findSession st.sessions sid with
  | none =>
      simp [hs, Prod.ext_iff] at h
      exact h.2.symm
  | some s =>
      by_cases hr : s.status = "reserved"
      · simp [hs, hr] at h
      · simp [hs, hr, Prod.ext_iff] at h
        exact h.2.symm

theorem windows_ok_preserved (ops : List Op) (st : State)
    (hst : WindowsOK st.sessions) (h : StartsTimely st ops) :
    WindowsOK (runOps st ops).sessions := by
  induction ops generalizing st with
  | nil => exact hst
  | cons op rest ih =>
      obtain ⟨hop, hrest⟩ := h
      refine ih (applyOp st op) ?_ hrest
      cases op with
      | reserve d now newId =>
          rcases hr : create_charging_session st d now newId with ⟨r, st'⟩
          have happ : applyOp st (.reserve d now newId) = st' := by
            simp [applyOp, hr]
          rw [happ]
          cases r with
          | error e => rw [create_error_inv st d now newId e st' hr]; exact hst
          | ok sess =>
              obtain ⟨ts, tc, hnow, hlt, _, _, _, _, hsess, hstx⟩ :=
                create_ok_inv st d now newId sess st' hr
              subst hsess
              rw [hstx]
              intro x hx
              simp at hx
              rcases hx with hx | hx
              · exact hst x hx
              · rw [hx]
                exact hlt
      | start sid now =>
          rcases hr : start_charging_session st sid now with ⟨r, st'⟩
          have happ : applyOp st (.start sid now) = st' := by
            simp [applyOp, hr]
          rw [happ]
          cases r with
          | error e => rw [start_error_inv st sid now e st' hr]; exact hst
          | ok sess =>
              obtain ⟨s, hs, hres, hsess, hstx⟩ :=
                start_ok_inv st sid now sess st' hr
              rw [hstx]
              intro x hx
              rcases mem_updateSessionFirst st.sessions sid _ x hx with
                hmem | ⟨t, ht, hxt⟩
              · exact hst x hmem
              · rw [hs] at ht
                injection ht with ht
                subst ht
                rw [hxt]
                exact hop s hs hres
      | finish sid kwh cost now =>
          rcases hr : end_charging_session st sid kwh cost now with ⟨r, st'⟩
          have happ : applyOp st (.finish sid kwh cost now) = st' := by
            simp [applyOp, hr]
          rw [happ]
          cases r with
          | error e => rw [end_error_inv st sid kwh cost now e st' hr]; exact hst
          | ok sess =>
              obtain ⟨s, hs, hres, hsess, hstx⟩ :=
                end_ok_inv st sid kwh cost now sess st' hr
              rw [hstx]
              intro x hx
              rcases mem_updateSessionFirst st.sessions sid _ x hx with
                hmem | ⟨t, ht, hxt⟩
              · exact hst x hmem
              · rw [hxt]
                exact hst t (findSession_mem st.sessions sid t ht)
      | cancel sid now =>
          rcases hr : cancel_charging_session st sid now with ⟨r, st'⟩
          have happ : applyOp st (.cancel sid now) = st' := by
            simp [applyOp, hr]
          rw [happ]
          cases r with
          | error e => rw [cancel_error_inv st sid now e st' hr]; exact hst
          | ok u =>
              obtain ⟨s, hs, hres, hstx⟩ := cancel_ok_inv st sid now st' hr
              rw [hstx]
              intro x hx
              rcases mem_updateSessionFirst st.sessions sid _ x hx with
                hmem | ⟨t, ht, hxt⟩
              · exact hst x hmem
              · rw [hxt]
                exact hst t (findSession_mem st.sessions sid t ht)

/-- C7 counterexample: from the seeded initial state, reserve window [0, 10)
at instant 5, then call start at instant 20 (a stale-reservation start, which
the code accepts): the ledger session now has start_time = 20 and
expected_end_time = 10, violating start_time < expected_end_time. -/
theorem reachable_window_violation :
    ∃ s ∈ (runOps initState
        [Op.reserve seedRequest 5 "SESS-1",
         Op.start "SESS-1" 20]).sessions,
      ¬(s.start_time < s.expected_end_time) := by
  decide

/-- C7 (amended): in every state reachable from the seeded initial state by a
trace in which each start call occurs strictly before the expected end of the
reservation it starts, every ledger session satisfies
start_time < expected_end_time.  The restriction on start is forced by the
counterexample: start overwrites start_time with the actual start instant and
the code never compares it to expected_end_time. -/
theorem reachable_windows_ok (ops : List Op)
    (h : StartsTimely initState ops) :
    WindowsOK (runOps initState ops).sessions :=
  windows_ok_preserved ops initState
    (by intro s hs; simp [initState] at hs) h

/-- Witness for the amended C7 on a concrete timely trace. -/
theorem reachable_windows_ok_witness :
    StartsTimely initState
        [Op.reserve seedRequest 5 "SESS-1", Op.start "SESS-1" 7] ∧
    WindowsOK (runOps initState
        [Op.reserve seedRequest 5 "SESS-1",
         Op.start "SESS-1" 7]).sessions := by
  have hfirst : findSession (applyOp initState
      (Op.reserve seedRequest 5 "SESS-1")).sessions "SESS-1" =
      some { session_id := "SESS-1", station_id := "STN-001",
             connector_id := "C-001-1", user_id := "U1", start_time := 0,
             expected_end_time := 10, actual_end_time := none,
             kwh_consumed := none, cost := none, status := "reserved",
             created_at := 5, updated_at := 5 } := by
    decide
  have ht : StartsTimely initState
      [Op.reserve seedRequest 5 "SESS-1", Op.start "SESS-1" 7] := by
    refine ⟨trivial, ?_, trivial⟩
    intro s hfind hres
    rw [hfirst] at hfind
    injection hfind with hfind
    subst hfind
    decide
  exact ⟨ht, reachable_windows_ok _ ht⟩

theorem statusOk_preserved (ops : List Op) (st : State)
    (hst : ∀ s ∈ st.sessions, statusOk s = true) :
    ∀ s ∈ (runOps st ops).sessions, statusOk s = true := by
  induction ops generalizing st with
  | nil => exact hst
  | cons op rest ih =>
      refine ih (applyOp st op) ?_
      cases op with
      | reserve d now newId =>
          rcases hr : create_charging_session st d now newId with ⟨r, st'⟩
          have happ : applyOp st (.reserve d now newId) = st' := by
            simp [applyOp, hr]
          rw [happ]
          cases r with
          | error e => rw [create_error_inv st d now newId e st' hr]; exact hst
          | ok sess =>
              obtain ⟨ts, tc, _, _, _, _, _, _, hsess, hstx⟩ :=
                create_ok_inv st d now newId sess st' hr
              subst hsess
              rw [hstx]
              intro x hx
              simp at hx
              rcases hx with hx | hx
              · exact hst x hx
              · rw [hx]
                rfl
      | start sid now =>
          rcases hr : start_charging_session st sid now with ⟨r, st'⟩
          have happ : applyOp st (.start sid now) = st' := by
            simp [applyOp, hr]
          rw [happ]
          cases r with
          | error e => rw [start_error_inv st sid now e st' hr]; exact hst
          | ok sess =>
              obtain ⟨s, hs, _, _, hstx⟩ := start_ok_inv st sid now sess st' hr
              rw [hstx]
              intro x hx
              rcases mem_updateSessionFirst st.sessions sid _ x hx with
                hmem | ⟨t, _, hxt⟩
              · exact hst x hmem
              · rw [hxt]
                rfl
      | finish sid kwh cost now =>
          rcases hr : end_charging_session st sid kwh cost now with ⟨r, st'⟩
          have happ : applyOp st (.finish sid kwh cost now) = st' := by
            simp [applyOp, hr]
          rw [happ]
          cases r with
          | error e => rw [end_error_inv st sid kwh cost now e st' hr]; exact hst
          | ok sess =>
              obtain ⟨s, hs, _, _, hstx⟩ :=
                end_ok_inv st sid kwh cost now sess st' hr
              rw [hstx]
              intro x hx
              rcases mem_updateSessionFirst st.sessions sid _ x hx with
                hmem | ⟨t, _, hxt⟩
              · exact hst x hmem
              · rw [hxt]
                rfl
      | cancel sid now =>
          rcases hr : cancel_charging_session st sid now with ⟨r, st'⟩
          have happ : applyOp st (.cancel sid now) = st' := by
            simp [applyOp, hr]
          rw [happ]
          cases r with
          | error e => rw [cancel_error_inv st sid now e st' hr]; exact hst
          | ok u =>
              obtain ⟨s, hs, _, hstx⟩ := cancel_ok_inv st sid now st' hr
              rw [hstx]
              intro x hx
              rcases mem_updateSessionFirst st.sessions sid _ x hx with
                hmem | ⟨t, _, hxt⟩
              · exact hst x hmem
              · rw [hxt]
                rfl

/-- C10: although models.py lists "failed" among the possible session
statuses, no operation ever assigns it: in every state reachable from the
initial state every ledger session's status is reserved, in_progress,
completed or cancelled. -/
theorem reachable_no_failed_status (ops : List Op) :
    (runOps initState ops).sessions.all statusOk = true := by
  rw [List.all_eq_true]
  intro s hs
  exact statusOk_preserved ops initState
    (by intro x hx; simp [initState] at hx) s hs

theorem updateSessionFirst_split (sid : String)
    (f : ChargingSession → ChargingSession) (s₀ : ChargingSession) :
    ∀ sessions : List ChargingSession, findSession sessions sid = some s₀ →
      ∃ l1 l2, sessions = l1 ++ s₀ :: l2 ∧
        updateSessionFirst sessions sid f = l1 ++ f s₀ :: l2 := by
  intro sessions
  induction sessions with
  | nil => intro h; simp [findSession] at h
  | cons s rest ih =>
      intro h
      by_cases hid : s.session_id = sid
      · have hss : s = s₀ := by simpa [findSession, hid] using h
        subst hss
        exact ⟨[], rest, by simp, by simp [updateSessionFirst, hid]⟩
      · have h' : findSession rest sid = some s₀ := by
          simpa [findSession, hid] using h
        obtain ⟨l1, l2, he, hu⟩ := ih h'
        exact ⟨s :: l1, l2, by simp [he],
          by simp [updateSessionFirst, hid, hu]⟩

theorem countP_singleton_le_one {α : Type} (p : α → Bool) (a : α) :
    List.countP p [a] ≤ 1 := by
  simp [List.countP_cons]
  split <;> simp

theorem pairInv_applyOp (st : State) (op : Op) (h : PairInv st) :
    PairInv (applyOp st op) := by
  obtain ⟨hA, hB⟩ := h
  cases op with
  | reserve d now newId =>
      rcases hr : create_charging_session st d now newId with ⟨r, st'⟩
      have happ : applyOp st (.reserve d now newId) = st' := by
        simp [applyOp, hr]
      rw [happ]
      cases r with
      | error e =>
          rw [create_error_inv st d now newId e st' hr]
          exact ⟨hA, hB⟩
      | ok sess =>
          obtain ⟨ts, tc, hnow, hlt, hsf, hcf, hav, hchk, hsess, hstx⟩ :=
            create_ok_inv st d now newId sess st' hr
          subst hsess
          rw [hstx]
          have hcsi : connectorStatusIn st.stations d.station_id
              d.connector_id = some "available" := by
            simp [connectorStatusIn, hsf, hcf, hav]
          have hnone : ∀ s ∈ st.sessions,
              nonTerminalFor d.station_id d.connector_id s = false := by
            intro s hsmem
            by_contra hcon
            rw [Bool.not_eq_false] at hcon
            simp [nonTerminalFor] at hcon
            obtain ⟨⟨hsid, hcid⟩, hstat⟩ := hcon
            have hb := hB s hsmem hstat
            rw [hsid, hcid] at hb
            rcases hb with hb | hb <;> rw [hb] at hcsi <;> simp at hcsi
          unfold PairInv
          constructor
          · intro sid cid
            simp only [List.countP_append]
            by_cases hpair : sid = d.station_id ∧ cid = d.connector_id
            · rw [hpair.1, hpair.2]
              have hc0 : st.sessions.countP
                  (nonTerminalFor d.station_id d.connector_id) = 0 := by
                rw [List.countP_eq_zero]
                intro a ha
                simp [hnone a ha]
              rw [hc0]
              simpa using countP_singleton_le_one _ _
            · have hc1 : List.countP (nonTerminalFor sid cid) [({ session_id := newId, station_id := d.station_id, connector_id := d.connector_id, user_id := d.user_id, start_time := d.start_time, expected_end_time := d.expected_end_time, actual_end_time := none, kwh_consumed := none, cost := none, status := "reserved", created_at := now, updated_at := now } : ChargingSession)] = 0 := by
                rw [List.countP_eq_zero]
                intro a ha
                simp at ha
                rw [ha]
                simp [nonTerminalFor]
                intro hp1 hp2
                exact hpair ⟨hp1.symm, hp2.symm⟩
              rw [hc1]
              simpa using hA sid cid
          · intro x hx hxs
            rcases List.mem_append.1 hx with hx | hx
            · by_cases hpair : x.station_id = d.station_id ∧
                  x.connector_id = d.connector_id
              · exfalso
                have hfalse := hnone x hx
                simp [nonTerminalFor, hpair.1, hpair.2] at hfalse
                obtain ⟨h1, h2⟩ := hfalse
                rcases hxs with hxs | hxs
                · exact h1 hxs
                · exact h2 hxs
              · rw [connectorStatusIn_update_other st.stations _ _ _ _ _ hpair]
                exact hB x hx hxs
            · simp at hx
              subst hx
              left
              show connectorStatusIn (updateConnectorInStations st.stations
                d.station_id d.connector_id "reserved") d.station_id
                d.connector_id = some "reserved"
              rw [connectorStatusIn_update_self, hcsi]
              rfl
  | start sid now =>
      rcases hr : start_charging_session st sid now with ⟨r, st'⟩
      have happ : applyOp st (.start sid now) = st' := by
        simp [applyOp, hr]
      rw [happ]
      cases r with
      | error e =>
          rw [start_error_inv st sid now e st' hr]
          exact ⟨hA, hB⟩
      | ok sess =>
          obtain ⟨s₀, hs, hres, hsess, hstx⟩ :=
            start_ok_inv st sid now sess st' hr
          rw [hstx]
          obtain ⟨l1, l2, hsplit, hupd⟩ := updateSessionFirst_split sid
            (fun t => { t with status := "in_progress", start_time := now, updated_at := now }) s₀ st.sessions hs
          have hb₀ := hB s₀ (findSession_mem st.sessions sid s₀ hs)
            (Or.inl hres)
          unfold PairInv
          constructor
          · intro sid' cid'
            show List.countP (nonTerminalFor sid' cid') (updateSessionFirst st.sessions sid (fun t => { t with status := "in_progress", start_time := now, updated_at := now })) ≤ 1
            rw [hupd]
            have hpf : nonTerminalFor sid' cid' ({ s₀ with status := "in_progress", start_time := now, updated_at := now } : ChargingSession) = nonTerminalFor sid' cid' s₀ := by
              simp [nonTerminalFor, hres]
            have hcnt : List.countP (nonTerminalFor sid' cid') (l1 ++ ({ s₀ with status := "in_progress", start_time := now, updated_at := now } : ChargingSession) :: l2) = List.countP (nonTerminalFor sid' cid') (l1 ++ s₀ :: l2) := by
              simp [List.countP_append, List.countP_cons, hpf]
            rw [hcnt, ← hsplit]
            exact hA sid' cid'
          · intro x hx hxs
            have hx' : x ∈ l1 ++ ({ s₀ with status := "in_progress", start_time := now, updated_at := now } : ChargingSession) :: l2 := by
              rw [← hupd]
              exact hx
            have hocc : connectorStatusIn (updateConnectorInStations
                st.stations s₀.station_id s₀.connector_id "occupied")
                s₀.station_id s₀.connector_id = some "occupied" := by
              rw [connectorStatusIn_update_self]
              rcases hb₀ with hb | hb <;> rw [hb] <;> rfl
            rcases List.mem_append.1 hx' with hx1 | hx1
            · have hxmem : x ∈ st.sessions := by
                rw [hsplit]
                exact List.mem_append_left _ hx1
              by_cases hpair : x.station_id = s₀.station_id ∧
                  x.connector_id = s₀.connector_id
              · right
                rw [hpair.1, hpair.2]
                exact hocc
              · rw [connectorStatusIn_update_other st.stations _ _ _ _ _ hpair]
                exact hB x hxmem hxs
            · rcases List.mem_cons.1 hx1 with hx2 | hx2
              · subst hx2
                right
                exact hocc
              · have hxmem : x ∈ st.sessions := by
                  rw [hsplit]
                  exact List.mem_append_right _ (List.mem_cons_of_mem _ hx2)
                by_cases hpair : x.station_id = s₀.station_id ∧
                    x.connector_id = s₀.connector_id
                · right
                  rw [hpair.1, hpair.2]
                  exact hocc
                · rw [connectorStatusIn_update_other st.stations _ _ _ _ _
                    hpair]
                  exact hB x hxmem hxs
  | finish sid kwh cost now =>
      rcases hr : end_charging_session st sid kwh cost now with ⟨r, st'⟩
      have happ : applyOp st (.finish sid kwh cost now) = st' := by
        simp [applyOp, hr]
      rw [happ]
      cases r with
      | error e =>
          rw [end_error_inv st sid kwh cost now e st' hr]
          exact ⟨hA, hB⟩
      | ok sess =>
          obtain ⟨s₀, hs, hres, hsess, hstx⟩ :=
            end_ok_inv st sid kwh cost now sess st' hr
          rw [hstx]
          obtain ⟨l1, l2, hsplit, hupd⟩ := updateSessionFirst_split sid
            (fun t => { t with status := "completed", actual_end_time := some now, kwh_consumed := some kwh, cost := some cost, updated_at := now }) s₀ st.sessions hs
          have hcount := hA s₀.station_id s₀.connector_id
          rw [hsplit, List.countP_append, List.countP_cons] at hcount
          have hp₀ : nonTerminalFor s₀.station_id s₀.connector_id s₀ = true := by
            simp [nonTerminalFor, hres]
          rw [hp₀] at hcount
          simp at hcount
          have hz1 : l1.countP (nonTerminalFor s₀.station_id
              s₀.connector_id) = 0 := by omega
          have hz2 : l2.countP (nonTerminalFor s₀.station_id
              s₀.connector_id) = 0 := by omega
          unfold PairInv
          constructor
          · intro sid' cid'
            show List.countP (nonTerminalFor sid' cid') (updateSessionFirst st.sessions sid (fun t => { t with status := "completed", actual_end_time := some now, kwh_consumed := some kwh, cost := some cost, updated_at := now })) ≤ 1
            rw [hupd]
            have hpf : nonTerminalFor sid' cid' ({ s₀ with status := "completed", actual_end_time := some now, kwh_consumed := some kwh, cost := some cost, updated_at := now } : ChargingSession) = false := by
              simp [nonTerminalFor]
            have hle := hA sid' cid'
            rw [hsplit, List.countP_append, List.countP_cons] at hle
            rw [List.countP_append, List.countP_cons, hpf]
            simp only [Bool.false_eq_true, if_neg, if_false] at *
            omega
          · intro x hx hxs
            have hx' : x ∈ l1 ++ ({ s₀ with status := "completed", actual_end_time := some now, kwh_consumed := some kwh, cost := some cost, updated_at := now } : ChargingSession) :: l2 := by
              rw [← hupd]
              exact hx
            have hterm : x ∈ l1 ∨ x ∈ l2 := by
              rcases List.mem_append.1 hx' with hx1 | hx1
              · exact Or.inl hx1
              · rcases List.mem_cons.1 hx1 with hx2 | hx2
                · exfalso
                  subst hx2
                  simp at hxs
                · exact Or.inr hx2
            have hxmem : x ∈ st.sessions := by
              rw [hsplit]
              rcases hterm with h1 | h1
              · exact List.mem_append_left _ h1
              · exact List.mem_append_right _ (List.mem_cons_of_mem _ h1)
            by_cases hpair : x.station_id = s₀.station_id ∧
                x.connector_id = s₀.connector_id
            · exfalso
              have hpx : nonTerminalFor s₀.station_id s₀.connector_id x =
                  true := by
                simp [nonTerminalFor, hpair.1, hpair.2]
                exact hxs
              rcases hterm with h1 | h1
              · exact (List.countP_eq_zero.1 hz1 x h1) hpx
              · exact (List.countP_eq_zero.1 hz2 x h1) hpx
            · rw [connectorStatusIn_update_other st.stations _ _ _ _ _ hpair]
              exact hB x hxmem hxs
  | cancel sid now =>
      rcases hr : cancel_charging_session st sid now with ⟨r, st'⟩
      have happ : applyOp st (.cancel sid now) = st' := by
        simp [applyOp, hr]
      rw [happ]
      cases r with
      | error e =>
          rw [cancel_error_inv st sid now e st' hr]
          exact ⟨hA, hB⟩
      | ok u =>
          obtain ⟨s₀, hs, hres, hstx⟩ := cancel_ok_inv st sid now st' hr
          rw [hstx]
          obtain ⟨l1, l2, hsplit, hupd⟩ := updateSessionFirst_split sid
            (fun t => { t with status := "cancelled", updated_at := now }) s₀ st.sessions hs
          have hcount := hA s₀.station_id s₀.connector_id
          rw [hsplit, List.countP_append, List.countP_cons] at hcount
          have hp₀ : nonTerminalFor s₀.station_id s₀.connector_id s₀ = true := by
            simp [nonTerminalFor, hres]
          rw [hp₀] at hcount
          simp at hcount
          have hz1 : l1.countP (nonTerminalFor s₀.station_id
              s₀.connector_id) = 0 := by omega
          have hz2 : l2.countP (nonTerminalFor s₀.station_id
              s₀.connector_id) = 0 := by omega
          unfold PairInv
          constructor
          · intro sid' cid'
            show List.countP (nonTerminalFor sid' cid') (updateSessionFirst st.sessions sid (fun t => { t with status := "cancelled", updated_at := now })) ≤ 1
            rw [hupd]
            have hpf : nonTerminalFor sid' cid' ({ s₀ with status := "cancelled", updated_at := now } : ChargingSession) = false := by
              simp [nonTerminalFor]
            have hle := hA sid' cid'
            rw [hsplit, List.countP_append, List.countP_cons] at hle
            rw [List.countP_append, List.countP_cons, hpf]
            simp only [Bool.false_eq_true, if_neg, if_false] at *
            omega
          · intro x hx hxs
            have hx' : x ∈ l1 ++ ({ s₀ with status := "cancelled", updated_at := now } : ChargingSession) :: l2 := by
              rw [← hupd]
              exact hx
            have hterm : x ∈ l1 ∨ x ∈ l2 := by
              rcases List.mem_append.1 hx' with hx1 | hx1
              · exact Or.inl hx1
              · rcases List.mem_cons.1 hx1 with hx2 | hx2
                · exfalso
                  subst hx2
                  simp at hxs
                · exact Or.inr hx2
            have hxmem : x ∈ st.sessions := by
              rw [hsplit]
              rcases hterm with h1 | h1
              · exact List.mem_append_left _ h1
              · exact List.mem_append_right _ (List.mem_cons_of_mem _ h1)
            by_cases hpair : x.station_id = s₀.station_id ∧
                x.connector_id = s₀.connector_id
            · exfalso
              have hpx : nonTerminalFor s₀.station_id s₀.connector_id x =
                  true := by
                simp [nonTerminalFor, hpair.1, hpair.2]
                exact hxs
              rcases hterm with h1 | h1
              · exact (List.countP_eq_zero.1 hz1 x h1) hpx
              · exact (List.countP_eq_zero.1 hz2 x h1) hpx
            · rw [connectorStatusIn_update_other st.stations _ _ _ _ _ hpair]
              exact hB x hxmem hxs

theorem reserve_conflict_of_nonterminal (st : State) (hinv : PairInv st)
    (d : ChargingSessionCreate) (now : Int) (newId : String)
    (hw1 : d.start_time < d.expected_end_time)
    (hw2 : now < d.expected_end_time)
    (hany : st.sessions.any (nonTerminalFor d.station_id d.connector_id) =
      true) :
    ∃ cs, (create_charging_session st d now newId).1 =
      .error (.connectorNotAvailable d.connector_id cs) := by
  obtain ⟨s, hsmem, hsp⟩ := List.any_eq_true.1 hany
  simp [nonTerminalFor] at hsp
  obtain ⟨⟨hsid, hcid⟩, hstat⟩ := hsp
  have hb := hinv.2 s hsmem hstat
  rw [hsid, hcid] at hb
  have hv : ∃ v, connectorStatusIn st.stations d.station_id d.connector_id =
      some v ∧ v ≠ "available" := by
    rcases hb with hb | hb
    · exact ⟨"reserved", hb, by decide⟩
    · exact ⟨"occupied", hb, by decide⟩
  obtain ⟨v, hcsi, hvne⟩ := hv
  unfold connectorStatusIn at hcsi
  cases hsf : findStation st.stations d.station_id with
  | none => rw [hsf] at hcsi; simp at hcsi
  | some ts =>
      rw [hsf] at hcsi
      simp at hcsi
      obtain ⟨tc, hcf, hcst⟩ := hcsi
      have hne : ¬(tc.status = "available") := by
        rw [hcst]
        exact hvne
      refine ⟨tc.status, ?_⟩
      have h1 : ¬ d.expected_end_time ≤ now := not_le.2 hw2
      have h2 : ¬ d.start_time ≥ d.expected_end_time := not_le.2 hw1
      simp [create_charging_session, h1, h2, hsf, hcf, hne]

theorem pairInv_runOps (ops : List Op) (st : State) (h : PairInv st) :
    PairInv (runOps st ops) := by
  induction ops generalizing st with
  | nil => exact h
  | cons op rest ih => exact ih (applyOp st op) (pairInv_applyOp st op h)

/-- C9: in every reachable state each (station_id, connector_id) pair has at
most one non-terminal (reserved or in_progress) session; consequently, while
a connector has a non-terminal session, any further well-formed reserve
request for it fails with the Conflict (409) connector-unavailable error,
even when the requested window is disjoint from the existing session's
window. -/
theorem at_most_one_nonterminal_per_pair (ops : List Op) :
    (∀ sid cid, (runOps initState ops).sessions.countP
        (nonTerminalFor sid cid) ≤ 1)
    ∧ (∀ d now newId, d.start_time < d.expected_end_time →
        now < d.expected_end_time →
        ((runOps initState ops).sessions.any
          (nonTerminalFor d.station_id d.connector_id)) = true →
        ∃ cs, (create_charging_session (runOps initState ops) d now newId).1 =
          .error (.connectorNotAvailable d.connector_id cs) ∧
          ApiError.status_code (.connectorNotAvailable d.connector_id cs) =
            409) := by
  have hinit : PairInv initState := by
    constructor
    · intro sid cid
      simp [initState, List.countP_nil]
    · intro s hs
      simp [initState] at hs
  have hinv := pairInv_runOps ops initState hinit
  refine ⟨hinv.1, ?_⟩
  intro d now newId hw1 hw2 hany
  obtain ⟨cs, hcs⟩ := reserve_conflict_of_nonterminal (runOps initState ops)
    hinv d now newId hw1 hw2 hany
  exact ⟨cs, hcs, rfl⟩

/-- Witness for C9: after reserving [0, 10) on the seeded connector, a second
reserve with disjoint window [20, 30) still fails with 409. -/
theorem at_most_one_nonterminal_per_pair_witness :
    ∃ cs, (create_charging_session
        (runOps initState [Op.reserve seedRequest 5 "SESS-1"])
        seedRequest2 6 "SESS-2").1 =
      .error (.connectorNotAvailable seedRequest2.connector_id cs) ∧
      ApiError.status_code
        (.connectorNotAvailable seedRequest2.connector_id cs) = 409 :=
  (at_most_one_nonterminal_per_pair [Op.reserve seedRequest 5 "SESS-1"]).2
    seedRequest2 6 "SESS-2" (by decide) (by decide) (by decide)

end EVCharging
